import Mathlib

/-!
Verification of the analytics core of the IBS wellness tracker.

The program stores one health-log record per calendar date in a
date-keyed mapping (a Python dict).  Records are flat objects whose
fields are JSON scalars.  We embed the record shape, the trigger
detector (utils.get_trigger_foods), the time-series builder
(utils.convert_to_dataframe), the statistics routine
(DataManager.get_statistics), the feature deriver
(DataManager.get_processed_data), the deletion path
(DataManager.delete_entry) and the two correlation operations of
visualizations.Visualizer, and prove the specification claims about
them.

Conventions of the embedding:
- a JSON scalar is a Value: an exact rational number or a free-text
  string (the app only ever stores numbers and strings in the fields
  the claims touch);
- a Python dict is an association list with pairwise-distinct keys,
  listed in insertion order;
- a field that may be absent from a record is an Option;
- a computation that can raise a Python exception returns an Option,
  with none for the raised case;
- a pandas NaN cell is the none of an Option.
-/

/-- A JSON-like scalar stored in a record field: a number (modelled as an
exact rational) or a free-text string. -/
inductive Value where
  | num (q : ℚ)
  | str (s : String)
  deriving DecidableEq, Repr

/-- One day's health-log record.  Only the fields the analytics layer
reads are modelled; each is optional because stored records are plain
dicts and a key may be absent.  Field names follow the source. -/
structure HealthEntry where
  symptom_severity : Option Value
  sleep_hours : Option Value
  sleep_quality : Option Value
  stress_level : Option Value
  exercise : Option Value
  meals : Option Value
  diet_notes : Option Value
  deriving DecidableEq, Repr

/-- The all-fields-absent record, convenient for building test data. -/
def HealthEntry.empty : HealthEntry :=
  { symptom_severity := none, sleep_hours := none, sleep_quality := none,
    stress_level := none, exercise := none, meals := none, diet_notes := none }

/-- The persisted collection: a date-keyed mapping, modelled as an
association list from date string to record, in insertion order. -/
abbrev EntryCollection := List (String × HealthEntry)

/-- The decimal digit denoted by a character, none for a non-digit. -/
def charDigit? (c : Char) : Option ℕ :=
  if 48 ≤ c.toNat ∧ c.toNat ≤ 57 then some (c.toNat - 48) else none

/-- Reading a run of decimal digits left to right with an accumulator,
failing on the first non-digit. -/
def decDigitsAux : List Char → ℕ → Option ℕ
  | [], acc => some acc
  | c :: cs, acc =>
    match charDigit? c with
    | none => none
    | some d => decDigitsAux cs (acc * 10 + d)

/-- The numeric reading of a string, as Python float(s) sees it,
modelled for non-empty unsigned integer literals (the only numeric
strings that could reach the analytics layer; every free-text string
fails to parse here exactly as it raises in Python). -/
def parsePyNumber (s : String) : Option ℚ :=
  if s.data.isEmpty then none
  else (decDigitsAux s.data 0).map (fun n => (n : ℚ))

/-- Model of the Python coercion float(v) applied to a stored scalar:
a number converts to itself; a string is parsed as a numeric literal
and otherwise the coercion raises, modelled as none. -/
def pyFloat : Value → Option ℚ
  | Value.num q => some q
  | Value.str s => parsePyNumber s

/-- Model of the Python comparison (v >= threshold) for a stored scalar
against a numeric threshold: defined for numbers, raises (none) for a
string operand, as in Python 3. -/
def valueGe (v : Value) (t : ℚ) : Option Bool :=
  match v with
  | Value.num q => some (decide (t ≤ q))
  | Value.str _ => none

/-- src/utils.py, get_trigger_foods: iterate over the collection; a date
whose record has symptom_severity (defaulting to 0 when absent) at or
above the threshold is mapped to the record's "meals" value, with the
string "No meals recorded" when that key is absent.  The whole call
raises (none) when a compared severity is a string. -/
def get_trigger_foods (data : EntryCollection) (threshold : ℚ) :
    Option (List (String × Value)) :=
  data.foldr (fun de acc =>
    match acc with
    | none => none
    | some m =>
      match valueGe ((de.2.symptom_severity).getD (Value.num 0)) threshold with
      | none => none
      | some true =>
          some ((de.1, (de.2.meals).getD (Value.str "No meals recorded")) :: m)
      | some false => some m) (some [])

/-- Rounding of an exact rational to one decimal place with
round-half-to-even tie-breaking, the semantics of Python's round(x, 1)
on exactly representable inputs. -/
def roundHalfEven (q : ℚ) : ℤ :=
  let f : ℤ := Int.floor q
  let r : ℚ := q - (f : ℚ)
  if r < 1/2 then f
  else if 1/2 < r then f + 1
  else if f % 2 = 0 then f else f + 1

/-- Round a rational to one decimal place (Python round(x, 1)). -/
def round1 (q : ℚ) : ℚ := ((roundHalfEven (10 * q) : ℤ) : ℚ) / 10

/-- Sum of float(d.get(field, 0)) over the records of the collection,
raising (none) when any stored value fails the float coercion. -/
def fieldSum (data : EntryCollection) (f : HealthEntry → Option Value) :
    Option ℚ :=
  data.foldr (fun p acc =>
    match acc with
    | none => none
    | some s =>
      match pyFloat ((f p.2).getD (Value.num 0)) with
      | none => none
      | some q => some (q + s)) (some 0)

/-- src/data_manager.py, DataManager.get_statistics: on an empty
collection return zero defaults; otherwise divide each field's sum
(absent fields contributing float(0)) by the total number of entries
and round to one decimal place.  The triple is
(avg_severity, avg_sleep, avg_stress); none models a raised
exception from the float coercion. -/
def get_statistics (data : EntryCollection) : Option (ℚ × ℚ × ℚ) :=
  if data.isEmpty then some (0, 0, 0)
  else
    match fieldSum data (fun e => e.symptom_severity),
          fieldSum data (fun e => e.sleep_hours),
          fieldSum data (fun e => e.stress_level) with
    | some a, some b, some c =>
        let n : ℚ := (data.length : ℚ)
        some (round1 (a / n), round1 (b / n), round1 (c / n))
    | _, _, _ => none

/-- Lexicographic comparison of two character lists by code point, the
order pandas uses on a string index. -/
def charListLe : List Char → List Char → Bool
  | [], _ => true
  | _ :: _, [] => false
  | a :: as, b :: bs =>
    if a.toNat < b.toNat then true
    else if b.toNat < a.toNat then false
    else charListLe as bs

/-- Lexicographic string comparison by code point (the order of both
Python string comparison and a pandas string index sort). -/
def strLe (a b : String) : Bool := charListLe a.data b.data

instance : DecidableRel (fun (a b : String × HealthEntry) => strLe a.1 b.1 = true) :=
  fun a b => inferInstanceAs (Decidable (strLe a.1 b.1 = true))

/-- src/utils.py, convert_to_dataframe: build a table with one row per
date key of the collection and sort it ascending by the date index
(pandas sort_index, a stable sort on the key strings, which for
YYYY-MM-DD keys is calendar order).  An empty collection yields the
empty table. -/
def convert_to_dataframe (data : EntryCollection) : EntryCollection :=
  List.insertionSort (fun a b => strLe a.1 b.1 = true) data

/-- A column is present in the built table when at least one record of
the collection carries the field (pandas builds the column set as the
union of the row dicts' keys). -/
def colPresent (rows : EntryCollection) (f : HealthEntry → Option Value) :
    Bool :=
  rows.any (fun p => (f p.2).isSome)

/-- A numeric column of the table after pd.to_numeric with coercion of
errors: absent when no row carries the field; otherwise one cell per
row, with none (NaN) for a missing or unparseable value. -/
def numCol (rows : EntryCollection) (f : HealthEntry → Option Value) :
    Option (List (Option ℚ)) :=
  if colPresent rows f then some (rows.map (fun p => (f p.2).bind pyFloat))
  else none

/-- pandas Series.shift(1): each cell moves down one position; the first
cell becomes missing and the last value drops off. -/
def shift1 (xs : List (Option ℚ)) : List (Option ℚ) :=
  (none :: xs).take xs.length

/-- The non-missing values in the trailing window of up to 7 cells
ending at position i (pandas rolling window 7). -/
def windowVals (xs : List (Option ℚ)) (i : ℕ) : List ℚ :=
  ((xs.take (i + 1)).drop (i + 1 - 7)).filterMap id

/-- pandas rolling(window 7, min period 1).mean(): for every position,
the mean of the non-missing values in the trailing window of up to 7
cells, or NaN when the window holds no value. -/
def rollingMean7 (xs : List (Option ℚ)) : List (Option ℚ) :=
  (List.range xs.length).map (fun i =>
    let vs := windowVals xs i
    if vs.isEmpty then none else some (vs.sum / (vs.length : ℚ)))

/-- The table returned by DataManager.get_processed_data: the date
index plus the numeric columns, each absent (none) when the code did
not create it. -/
structure ProcessedData where
  dates : List String
  symptom_severity : Option (List (Option ℚ))
  sleep_hours : Option (List (Option ℚ))
  stress_level : Option (List (Option ℚ))
  exercise : Option (List (Option ℚ))
  severity_7d_avg : Option (List (Option ℚ))
  stress_7d_avg : Option (List (Option ℚ))
  stress_lag1 : Option (List (Option ℚ))
  sleep_lag1 : Option (List (Option ℚ))
  severity_lag1 : Option (List (Option ℚ))
  deriving DecidableEq, Repr

/-- src/data_manager.py, DataManager.get_processed_data: sort the
collection into a table; on an empty table return it unchanged;
otherwise coerce the four numeric columns, add the two rolling-mean
columns only when the table has at least 3 rows (indexing a column
that does not exist raises a KeyError, modelled as none), and add the
three lag columns for whichever source columns exist. -/
def get_processed_data (data : EntryCollection) : Option ProcessedData :=
  let rows := convert_to_dataframe data
  if rows.isEmpty then
    some { dates := [], symptom_severity := none, sleep_hours := none,
           stress_level := none, exercise := none, severity_7d_avg := none,
           stress_7d_avg := none, stress_lag1 := none, sleep_lag1 := none,
           severity_lag1 := none }
  else
    let sev := numCol rows (fun e => e.symptom_severity)
    let slp := numCol rows (fun e => e.sleep_hours)
    let strs := numCol rows (fun e => e.stress_level)
    let exr := numCol rows (fun e => e.exercise)
    if 3 ≤ rows.length then
      match sev, strs with
      | some s, some t =>
          some { dates := rows.map Prod.fst,
                 symptom_severity := sev, sleep_hours := slp,
                 stress_level := strs, exercise := exr,
                 severity_7d_avg := some (rollingMean7 s),
                 stress_7d_avg := some (rollingMean7 t),
                 stress_lag1 := strs.map shift1,
                 sleep_lag1 := slp.map shift1,
                 severity_lag1 := sev.map shift1 }
      | _, _ => none
    else
      some { dates := rows.map Prod.fst,
             symptom_severity := sev, sleep_hours := slp,
             stress_level := strs, exercise := exr,
             severity_7d_avg := none, stress_7d_avg := none,
             stress_lag1 := strs.map shift1,
             sleep_lag1 := slp.map shift1,
             severity_lag1 := sev.map shift1 }

/-- src/data_manager.py, DataManager.delete_entry: when the date is a
key of the collection, remove that binding and save, reporting the
save's success (storage is modelled as succeeding); otherwise report
failure and leave the collection as it was.  The pair is (returned
boolean, resulting persisted collection). -/
def delete_entry (data : EntryCollection) (date : String) :
    Bool × EntryCollection :=
  if data.any (fun p => p.1 == date) then
    (true, data.filter (fun p => p.1 != date))
  else (false, data)

/-- A pandas DataFrame as the two correlation charts consume it: a row
count and named numeric columns (the charts only ever read numeric
cells). -/
structure DFrame where
  nrows : ℕ
  cols : List (String × List (Option ℚ))
  deriving DecidableEq, Repr

/-- Column membership test (col in data.columns). -/
def hasCol (df : DFrame) (c : String) : Bool :=
  df.cols.any (fun p => p.1 == c)

/-- The cells of a named column, empty when absent. -/
def getColD (df : DFrame) (c : String) : List (Option ℚ) :=
  ((df.cols.find? (fun p => p.1 == c)).map Prod.snd).getD []

/-- The pairwise-complete row set of two columns: the positions where
both cells are non-missing (pandas corr drops a row when either side
is NaN). -/
def pairwiseComplete (xs ys : List (Option ℚ)) : List (ℚ × ℚ) :=
  (xs.zip ys).filterMap (fun p =>
    match p with
    | (some a, some b) => some (a, b)
    | _ => none)

/-- Mean of the first coordinates of the complete pairs. -/
def meanFst (ps : List (ℚ × ℚ)) : ℚ :=
  (ps.map Prod.fst).sum / (ps.length : ℚ)

/-- Mean of the second coordinates of the complete pairs. -/
def meanSnd (ps : List (ℚ × ℚ)) : ℚ :=
  (ps.map Prod.snd).sum / (ps.length : ℚ)

/-- Centered cross sum of the complete pairs, the numerator of the
Pearson correlation. -/
def sxy (ps : List (ℚ × ℚ)) : ℚ :=
  (ps.map (fun p => (p.1 - meanFst ps) * (p.2 - meanSnd ps))).sum

/-- Centered sum of squares of the first column. -/
def sxx (ps : List (ℚ × ℚ)) : ℚ :=
  (ps.map (fun p => (p.1 - meanFst ps) ^ 2)).sum

/-- Centered sum of squares of the second column. -/
def syy (ps : List (ℚ × ℚ)) : ℚ :=
  (ps.map (fun p => (p.2 - meanSnd ps) ^ 2)).sum

/-- The pandas pairwise Pearson correlation of two columns.  The float
the code computes is sxy / sqrt(sxx * syy) over the pairwise-complete
rows, which is irrational in general, so the embedding returns the
exact pair (sxy, sxx * syy) determining it; none models a NaN result,
which pandas produces when fewer than 2 complete pairs exist or when a
column is constant on the complete rows (a 0/0, not a crash). -/
def pearsonCorr (xs ys : List (Option ℚ)) : Option (ℚ × ℚ) :=
  let ps := pairwiseComplete xs ys
  if ps.length < 2 then none
  else if sxx ps = 0 ∨ syy ps = 0 then none
  else some (sxy ps, sxx ps * syy ps)

/-- Outcome of Visualizer.create_correlation_heatmap: one of the two
informational empty figures, or the heatmap of pairwise correlations
over the valid columns. -/
inductive HeatmapResult where
  | needsMoreData
  | notEnoughMetrics
  | heatmap (m : List (List (Option (ℚ × ℚ))))
  deriving DecidableEq, Repr

/-- The candidate columns of the correlation heatmap, in source
order. -/
def heatmapCols : List String :=
  ["symptom_severity", "sleep_hours", "sleep_quality", "stress_level",
   "exercise"]

/-- src/visualizations.py, Visualizer.create_correlation_heatmap: an
empty or short table (pandas empty means either axis has length 0)
signals that more data is needed; fewer than 2 of the candidate
columns signals not enough metrics; otherwise the pairwise correlation
matrix of the valid columns is drawn. -/
def create_correlation_heatmap (df : DFrame) : HeatmapResult :=
  if df.cols.isEmpty ∨ df.nrows < 3 then HeatmapResult.needsMoreData
  else
    let valid := heatmapCols.filter (fun c => hasCol df c)
    if valid.length < 2 then HeatmapResult.notEnoughMetrics
    else
      HeatmapResult.heatmap
        (valid.map (fun c1 =>
          valid.map (fun c2 => pearsonCorr (getColD df c1) (getColD df c2))))

/-- Outcome of Visualizer.create_lagged_correlation_chart: one of the
three informational empty figures, or the bar chart pairing each
present feature with its correlation against symptom severity. -/
inductive LagResult where
  | needMoreData
  | noSymptomData
  | notEnoughMatched
  | chart (cs : List (String × Option (ℚ × ℚ)))
  deriving DecidableEq, Repr

/-- The labelled candidate features of the lag chart, in source
order. -/
def lagFeatures : List (String × String) :=
  [("Stress (Today)", "stress_level"), ("Stress (Yesterday)", "stress_lag1"),
   ("Sleep (Hours Today)", "sleep_hours"), ("Sleep (Yesterday)", "sleep_lag1")]

/-- src/visualizations.py, Visualizer.create_lagged_correlation_chart:
an empty or short table signals that more data is needed; a missing
symptom-severity column signals no symptom data; otherwise each
candidate column that exists contributes its correlation against
symptom severity (a NaN correlation still contributes an entry), and
an empty candidate set signals not enough matched data. -/
def create_lagged_correlation_chart (df : DFrame) : LagResult :=
  if df.cols.isEmpty ∨ df.nrows < 3 then LagResult.needMoreData
  else if hasCol df "symptom_severity" then
    let correlations := (lagFeatures.filter (fun p => hasCol df p.2)).map
      (fun p =>
        (p.1, pearsonCorr (getColD df "symptom_severity") (getColD df p.2)))
    if correlations.isEmpty then LagResult.notEnoughMatched
    else LagResult.chart correlations
  else LagResult.noSymptomData

/-- Whether a stored field value is absent or a number, the shapes on
which the Python numeric coercions cannot raise. -/
def isNumOrAbsent (v : Option Value) : Bool :=
  match v with
  | none => true
  | some (Value.num _) => true
  | some (Value.str _) => false

/-- The number a record contributes to a field sum: the stored number,
or 0 when the field is absent (only meaningful on records accepted by
isNumOrAbsent). -/
def numOr0 (v : Option Value) : ℚ :=
  match v with
  | some (Value.num q) => q
  | _ => 0

/-- A record builder for concrete test collections: severity, stress
and sleep set to the given numbers, every other field absent. -/
def mkEntry (sv st sl : ℚ) : HealthEntry :=
  { HealthEntry.empty with
      symptom_severity := some (Value.num sv),
      stress_level := some (Value.num st),
      sleep_hours := some (Value.num sl) }

/-- The trigger-detection example collection of the specification:
one high-severity day with the diet note "pizza" recorded under the
diet_notes field (the field the app's save path writes), one
low-severity day. -/
def specTriggerExample : EntryCollection :=
  [("2024-01-01",
    { HealthEntry.empty with
        symptom_severity := some (Value.num 8),
        diet_notes := some (Value.str "pizza") }),
   ("2024-01-02",
    { HealthEntry.empty with symptom_severity := some (Value.num 3) })]

/-- Test collection for C10: one record with no severity key, one
high-severity record. -/
def exC10 : EntryCollection :=
  [("2024-01-01", HealthEntry.empty),
   ("2024-01-02",
    { HealthEntry.empty with symptom_severity := some (Value.num 8) })]

/-- Two-record collection on which the code and the claim disagree:
the first record has severity 8, the second has no severity key. -/
def exC2 : EntryCollection :=
  [("2024-01-01", mkEntry 8 3 7),
   ("2024-01-02",
    { HealthEntry.empty with
        sleep_hours := some (Value.num 7),
        stress_level := some (Value.num 3) })]

/-- One-record collection whose severity is the non-numeric string
"high". -/
def exC2bad : EntryCollection :=
  [("2024-01-01",
    { HealthEntry.empty with symptom_severity := some (Value.str "high") })]

/-- One-record collection with severity, stress and sleep present. -/
def exC3 : EntryCollection := [("2024-01-01", mkEntry 5 3 7)]

/-- Three-record collection, inserted out of calendar order, with all
three numeric fields present everywhere. -/
def exC3w : EntryCollection :=
  [("2024-01-03", mkEntry 5 3 7), ("2024-01-01", mkEntry 2 1 8),
   ("2024-01-02", mkEntry 8 9 6)]

/-- The processed table of exC3w: three sorted rows, numeric columns,
rolling means and lags (exercise was never recorded, so that column is
absent). -/
def pdW : ProcessedData :=
  { dates := ["2024-01-01", "2024-01-02", "2024-01-03"],
    symptom_severity := some [some 2, some 8, some 5],
    sleep_hours := some [some 8, some 6, some 7],
    stress_level := some [some 1, some 9, some 3],
    exercise := none,
    severity_7d_avg := some [some 2, some 5, some 5],
    stress_7d_avg := some [some 1, some 5, some (13/3)],
    stress_lag1 := some [none, some 1, some 9],
    sleep_lag1 := some [none, some 8, some 6],
    severity_lag1 := some [none, some 2, some 8] }

/-- Two-record collection inserted in reverse calendar order. -/
def exC6a : EntryCollection :=
  [("2024-01-02", mkEntry 3 2 6), ("2024-01-01", mkEntry 5 3 7)]

/-- The same two records in calendar order. -/
def exC6b : EntryCollection :=
  [("2024-01-01", mkEntry 5 3 7), ("2024-01-02", mkEntry 3 2 6)]

/-- Two-record collection for the deletion scenario. -/
def exC9 : EntryCollection :=
  [("2024-01-01", mkEntry 5 3 7), ("2024-01-02", mkEntry 3 2 6)]

/-- A processed three-row table with all the chart columns present. -/
def dfW : DFrame :=
  ⟨3, [("symptom_severity", [some 1, some 2, some 3]),
       ("sleep_hours", [some 7, some 6, some 8]),
       ("stress_level", [some 2, some 2, some 4]),
       ("stress_lag1", [none, some 2, some 2]),
       ("sleep_lag1", [none, some 7, some 6])]⟩

/-- A table with only two rows. -/
def dfSmall : DFrame := ⟨2, [("symptom_severity", [some 1, some 2])]⟩

/-- A strictly increasing column. -/
def colW : List (Option ℚ) := [some 1, some 2, some 3]

/-- A constant column. -/
def colConst : List (Option ℚ) := [some 5, some 5, some 5]

lemma charListLe_total :
    ∀ as bs : List Char, charListLe as bs = true ∨ charListLe bs as = true := by
  intro as
  induction as with
  | nil => intro bs; left; rfl
  | cons a as ih =>
    intro bs
    cases bs with
    | nil => right; rfl
    | cons b bs =>
      simp only [charListLe]
      rcases Nat.lt_trichotomy a.toNat b.toNat with hab | hab | hab
      · left; simp [hab]
      · have h1 : ¬ a.toNat < b.toNat := by omega
        have h2 : ¬ b.toNat < a.toNat := by omega
        rcases ih bs with h | h
        · left; simp [h1, h2, h]
        · right; simp [h1, h2, h]
      · right; simp [hab]

lemma charListLe_trans :
    ∀ as bs cs : List Char, charListLe as bs = true →
      charListLe bs cs = true → charListLe as cs = true := by
  intro as
  induction as with
  | nil => intro bs cs _ _; rfl
  | cons a as ih =>
    intro bs cs h1 h2
    cases bs with
    | nil => simp [charListLe] at h1
    | cons b bs =>
      cases cs with
      | nil => simp [charListLe] at h2
      | cons c cs =>
        simp only [charListLe] at h1 h2 ⊢
        rcases Nat.lt_trichotomy a.toNat b.toNat with hab | hab | hab
        · rcases Nat.lt_trichotomy b.toNat c.toNat with hbc | hbc | hbc
          · simp [Nat.lt_trans hab hbc]
          · have : a.toNat < c.toNat := by omega
            simp [this]
          · have hx : ¬ b.toNat < c.toNat := by omega
            simp [hx, hbc] at h2
        · rcases Nat.lt_trichotomy b.toNat c.toNat with hbc | hbc | hbc
          · have : a.toNat < c.toNat := by omega
            simp [this]
          · have hac : ¬ a.toNat < c.toNat := by omega
            have hca : ¬ c.toNat < a.toNat := by omega
            have hx1 : ¬ a.toNat < b.toNat := by omega
            have hx2 : ¬ b.toNat < a.toNat := by omega
            have hx3 : ¬ b.toNat < c.toNat := by omega
            have hx4 : ¬ c.toNat < b.toNat := by omega
            simp [hx1, hx2] at h1
            simp [hx3, hx4] at h2
            simp [hac, hca]
            exact ih bs cs h1 h2
          · have hx : ¬ b.toNat < c.toNat := by omega
            simp [hx, hbc] at h2
        · have hx : ¬ a.toNat < b.toNat := by omega
          simp [hx, hab] at h1

lemma charListLe_antisymm :
    ∀ as bs : List Char, charListLe as bs = true →
      charListLe bs as = true → as = bs := by
  intro as
  induction as with
  | nil =>
    intro bs h1 h2
    cases bs with
    | nil => rfl
    | cons b bs => simp [charListLe] at h2
  | cons a as ih =>
    intro bs h1 h2
    cases bs with
    | nil => simp [charListLe] at h1
    | cons b bs =>
      simp only [charListLe] at h1 h2
      rcases Nat.lt_trichotomy a.toNat b.toNat with hab | hab | hab
      · have hx : ¬ b.toNat < a.toNat := by omega
        simp [hx, hab] at h2
      · have hx1 : ¬ a.toNat < b.toNat := by omega
        have hx2 : ¬ b.toNat < a.toNat := by omega
        simp [hx1, hx2] at h1 h2
        have hval : a.val.toNat = b.val.toNat := hab
        have hchar : a = b := Char.ext (UInt32.toNat.inj hval)
        rw [hchar, ih bs h1 h2]
      · have hx : ¬ a.toNat < b.toNat := by omega
        simp [hx, hab] at h1

lemma strLe_antisymm (a b : String) (h1 : strLe a b = true)
    (h2 : strLe b a = true) : a = b := by
  cases a with
  | mk da =>
    cases b with
    | mk db =>
      have : da = db := charListLe_antisymm da db h1 h2
      rw [this]

lemma exists_list_min :
    ∀ (vs : List ℚ), vs ≠ [] → ∃ mn, mn ∈ vs ∧ ∀ a ∈ vs, mn ≤ a := by
  intro vs
  induction vs with
  | nil => intro h; exact absurd rfl h
  | cons a l ih =>
    intro _
    cases l with
    | nil =>
      exact ⟨a, by simp⟩
    | cons b t =>
      obtain ⟨mn, hmem, hall⟩ := ih (by simp)
      refine ⟨min a mn, ?_, ?_⟩
      · rcases min_choice a mn with h | h
        · rw [h]; exact List.mem_cons_self a _
        · rw [h]; exact List.mem_cons_of_mem a hmem
      · intro x hx
        rcases List.mem_cons.mp hx with h | hx
        · subst h; exact min_le_left _ _
        · exact le_trans (min_le_right a mn) (hall x hx)

lemma exists_list_max :
    ∀ (vs : List ℚ), vs ≠ [] → ∃ mx, mx ∈ vs ∧ ∀ a ∈ vs, a ≤ mx := by
  intro vs
  induction vs with
  | nil => intro h; exact absurd rfl h
  | cons a l ih =>
    intro _
    cases l with
    | nil =>
      exact ⟨a, by simp⟩
    | cons b t =>
      obtain ⟨mx, hmem, hall⟩ := ih (by simp)
      refine ⟨max a mx, ?_, ?_⟩
      · rcases max_choice a mx with h | h
        · rw [h]; exact List.mem_cons_self a _
        · rw [h]; exact List.mem_cons_of_mem a hmem
      · intro x hx
        rcases List.mem_cons.mp hx with h | hx
        · subst h; exact le_max_left _ _
        · exact le_trans (hall x hx) (le_max_right a mx)

lemma list_sum_le_length_mul (vs : List ℚ) (c : ℚ) (h : ∀ a ∈ vs, a ≤ c) :
    vs.sum ≤ (vs.length : ℚ) * c := by
  induction vs with
  | nil => simp
  | cons a l ih =>
    simp only [List.sum_cons, List.length_cons]
    have h1 : a ≤ c := h a (List.mem_cons_self a l)
    have h2 : l.sum ≤ (l.length : ℚ) * c :=
      ih (fun x hx => h x (List.mem_cons_of_mem a hx))
    push_cast
    nlinarith

lemma length_mul_le_list_sum (vs : List ℚ) (c : ℚ) (h : ∀ a ∈ vs, c ≤ a) :
    (vs.length : ℚ) * c ≤ vs.sum := by
  induction vs with
  | nil => simp
  | cons a l ih =>
    simp only [List.sum_cons, List.length_cons]
    have h1 : c ≤ a := h a (List.mem_cons_self a l)
    have h2 : (l.length : ℚ) * c ≤ l.sum :=
      ih (fun x hx => h x (List.mem_cons_of_mem a hx))
    push_cast
    nlinarith

lemma mean_between_min_max (vs : List ℚ) (h : vs ≠ []) :
    ∃ mn mx, mn ∈ vs ∧ mx ∈ vs ∧ (∀ a ∈ vs, mn ≤ a ∧ a ≤ mx) ∧
      mn ≤ vs.sum / (vs.length : ℚ) ∧ vs.sum / (vs.length : ℚ) ≤ mx := by
  obtain ⟨mn, hmnm, hmn⟩ := exists_list_min vs h
  obtain ⟨mx, hmxm, hmx⟩ := exists_list_max vs h
  have hlen : 0 < (vs.length : ℚ) := by
    have : 0 < vs.length := List.length_pos.mpr h
    exact_mod_cast this
  refine ⟨mn, mx, hmnm, hmxm, fun a ha => ⟨hmn a ha, hmx a ha⟩, ?_, ?_⟩
  · rw [le_div_iff₀ hlen]
    calc mn * (vs.length : ℚ) = (vs.length : ℚ) * mn := by ring
    _ ≤ vs.sum := length_mul_le_list_sum vs mn hmn
  · rw [div_le_iff₀ hlen]
    calc vs.sum ≤ (vs.length : ℚ) * mx := list_sum_le_length_mul vs mx hmx
    _ = mx * (vs.length : ℚ) := by ring

lemma list_sq_sum_nonneg (l : List (ℚ × ℚ)) (f : ℚ × ℚ → ℚ) :
    0 ≤ (l.map (fun p => f p ^ 2)).sum := by
  apply List.sum_nonneg
  intro x hx
  obtain ⟨p, _, rfl⟩ := List.mem_map.mp hx
  positivity

lemma list_cauchy_schwarz (l : List (ℚ × ℚ)) (f g : ℚ × ℚ → ℚ) :
    ((l.map (fun p => f p * g p)).sum) ^ 2 ≤
      ((l.map (fun p => f p ^ 2)).sum) * ((l.map (fun p => g p ^ 2)).sum) := by
  induction l with
  | nil => simp
  | cons hd t ih =>
    simp only [List.map_cons, List.sum_cons]
    have hA : 0 ≤ (t.map (fun p => f p ^ 2)).sum := list_sq_sum_nonneg t f
    have hB : 0 ≤ (t.map (fun p => g p ^ 2)).sum := list_sq_sum_nonneg t g
    set a := f hd with ha
    set b := g hd with hb
    set s := (t.map (fun p => f p * g p)).sum with hs
    set A := (t.map (fun p => f p ^ 2)).sum with hA2
    set B := (t.map (fun p => g p ^ 2)).sum with hB2
    rcases eq_or_lt_of_le hB with hB0 | hBpos
    · have hs0 : s ^ 2 ≤ 0 := by
        have := ih
        rw [← hB0] at this
        simpa using this
      have hs0' : s = 0 := by nlinarith [sq_nonneg s]
      rw [hs0', ← hB0]
      nlinarith [sq_nonneg (a * b), mul_nonneg hA (sq_nonneg b)]
    · nlinarith [sq_nonneg (a * B - b * s),
        mul_nonneg (sq_nonneg b) (sub_nonneg.mpr ih),
        mul_nonneg hBpos.le (sub_nonneg.mpr ih), hBpos, hA]

lemma get_trigger_foods_eq (data : EntryCollection) (t : ℚ)
    (h : data.all (fun p => isNumOrAbsent p.2.symptom_severity)) :
    get_trigger_foods data t =
      some ((data.filter
              (fun p => decide (t ≤ numOr0 p.2.symptom_severity))).map
        (fun p => (p.1, (p.2.meals).getD (Value.str "No meals recorded")))) := by
  induction data with
  | nil => rfl
  | cons a l ih =>
    simp only [List.all_cons, Bool.and_eq_true] at h
    have hstep : get_trigger_foods (a :: l) t =
        match get_trigger_foods l t with
        | none => none
        | some m =>
          match valueGe ((a.2.symptom_severity).getD (Value.num 0)) t with
          | none => none
          | some true =>
              some ((a.1, (a.2.meals).getD (Value.str "No meals recorded")) :: m)
          | some false => some m := rfl
    rw [hstep, ih h.2]
    rcases hv : a.2.symptom_severity with _ | v
    · by_cases ht : t ≤ 0
      · simp [hv, valueGe, numOr0, ht, List.filter_cons]
      · simp [hv, valueGe, numOr0, ht, List.filter_cons]
    · cases v with
      | num q =>
        by_cases ht : t ≤ q
        · simp [hv, valueGe, numOr0, ht, List.filter_cons]
        · simp [hv, valueGe, numOr0, ht, List.filter_cons]
      | str s =>
        have := h.1
        rw [hv] at this
        simp [isNumOrAbsent] at this

lemma fieldSum_eq (data : EntryCollection) (f : HealthEntry → Option Value)
    (h : data.all (fun p => isNumOrAbsent (f p.2))) :
    fieldSum data f = some ((data.map (fun p => numOr0 (f p.2))).sum) := by
  induction data with
  | nil => rfl
  | cons a l ih =>
    simp only [List.all_cons, Bool.and_eq_true] at h
    have hstep : fieldSum (a :: l) f =
        match fieldSum l f with
        | none => none
        | some s =>
          match pyFloat ((f a.2).getD (Value.num 0)) with
          | none => none
          | some q => some (q + s) := rfl
    rw [hstep, ih h.2]
    rcases hv : f a.2 with _ | v
    · simp [hv, pyFloat, numOr0]
    · cases v with
      | num q => simp [hv, pyFloat, numOr0]
      | str s =>
        have := h.1
        rw [hv] at this
        simp [isNumOrAbsent] at this

lemma get_statistics_eq (data : EntryCollection) (hne : data ≠ [])
    (h1 : data.all (fun p => isNumOrAbsent p.2.symptom_severity))
    (h2 : data.all (fun p => isNumOrAbsent p.2.sleep_hours))
    (h3 : data.all (fun p => isNumOrAbsent p.2.stress_level)) :
    get_statistics data =
      some (round1 ((data.map (fun p => numOr0 p.2.symptom_severity)).sum
              / (data.length : ℚ)),
            round1 ((data.map (fun p => numOr0 p.2.sleep_hours)).sum
              / (data.length : ℚ)),
            round1 ((data.map (fun p => numOr0 p.2.stress_level)).sum
              / (data.length : ℚ))) := by
  have he : data.isEmpty = false := List.isEmpty_eq_false.mpr hne
  have e1 : fieldSum data (fun e => e.symptom_severity) =
      some ((data.map (fun p => numOr0 p.2.symptom_severity)).sum) :=
    fieldSum_eq data _ h1
  have e2 : fieldSum data (fun e => e.sleep_hours) =
      some ((data.map (fun p => numOr0 p.2.sleep_hours)).sum) :=
    fieldSum_eq data _ h2
  have e3 : fieldSum data (fun e => e.stress_level) =
      some ((data.map (fun p => numOr0 p.2.stress_level)).sum) :=
    fieldSum_eq data _ h3
  unfold get_statistics
  rw [he, e1, e2, e3]
  simp

lemma shift1_length (xs : List (Option ℚ)) :
    (shift1 xs).length = xs.length := by
  simp [shift1]

lemma shift1_zero (xs : List (Option ℚ)) (h : 0 < xs.length) :
    (shift1 xs)[0]? = some none := by
  cases xs with
  | nil => simp at h
  | cons a l => simp [shift1]

lemma shift1_get (xs : List (Option ℚ)) (i : ℕ) (h0 : 0 < i)
    (hi : i < xs.length) :
    (shift1 xs)[i]? = xs[i - 1]? := by
  obtain ⟨j, rfl⟩ : ∃ j, i = j + 1 := ⟨i - 1, by omega⟩
  show ((none :: xs).take xs.length)[j + 1]? = xs[j + 1 - 1]?
  rw [List.getElem?_take_of_lt hi]
  simp

lemma rollingMean7_length (xs : List (Option ℚ)) :
    (rollingMean7 xs).length = xs.length := by
  simp [rollingMean7]

lemma rollingMean7_get (xs : List (Option ℚ)) (i : ℕ) (hi : i < xs.length) :
    (rollingMean7 xs)[i]? =
      some (if (windowVals xs i).isEmpty then none
            else some ((windowVals xs i).sum
              / ((windowVals xs i).length : ℚ))) := by
  simp [rollingMean7, List.getElem?_range, hi]

lemma get_processed_data_ge3 (data : EntryCollection)
    (h3 : 3 ≤ (convert_to_dataframe data).length)
    (hsev : colPresent (convert_to_dataframe data)
      (fun e => e.symptom_severity) = true)
    (hstr : colPresent (convert_to_dataframe data)
      (fun e => e.stress_level) = true) :
    get_processed_data data =
      some { dates := (convert_to_dataframe data).map Prod.fst,
             symptom_severity := some ((convert_to_dataframe data).map
               (fun p => (p.2.symptom_severity).bind pyFloat)),
             sleep_hours := numCol (convert_to_dataframe data)
               (fun e => e.sleep_hours),
             stress_level := some ((convert_to_dataframe data).map
               (fun p => (p.2.stress_level).bind pyFloat)),
             exercise := numCol (convert_to_dataframe data)
               (fun e => e.exercise),
             severity_7d_avg := some (rollingMean7
               ((convert_to_dataframe data).map
                 (fun p => (p.2.symptom_severity).bind pyFloat))),
             stress_7d_avg := some (rollingMean7
               ((convert_to_dataframe data).map
                 (fun p => (p.2.stress_level).bind pyFloat))),
             stress_lag1 := some (shift1 ((convert_to_dataframe data).map
               (fun p => (p.2.stress_level).bind pyFloat))),
             sleep_lag1 := (numCol (convert_to_dataframe data)
               (fun e => e.sleep_hours)).map shift1,
             severity_lag1 := some (shift1 ((convert_to_dataframe data).map
               (fun p => (p.2.symptom_severity).bind pyFloat))) } := by
  have hne : (convert_to_dataframe data).isEmpty = false :=
    List.isEmpty_eq_false.mpr (by
      intro h
      rw [h] at h3
      simp at h3)
  have hs : numCol (convert_to_dataframe data) (fun e => e.symptom_severity)
      = some ((convert_to_dataframe data).map
          (fun p => (p.2.symptom_severity).bind pyFloat)) := by
    simp [numCol, hsev]
  have ht : numCol (convert_to_dataframe data) (fun e => e.stress_level)
      = some ((convert_to_dataframe data).map
          (fun p => (p.2.stress_level).bind pyFloat)) := by
    simp [numCol, hstr]
  simp [get_processed_data, hne, h3, hs, ht]

lemma get_processed_data_lt3 (data : EntryCollection)
    (hne : convert_to_dataframe data ≠ [])
    (hlt : (convert_to_dataframe data).length < 3) :
    get_processed_data data =
      some { dates := (convert_to_dataframe data).map Prod.fst,
             symptom_severity := numCol (convert_to_dataframe data)
               (fun e => e.symptom_severity),
             sleep_hours := numCol (convert_to_dataframe data)
               (fun e => e.sleep_hours),
             stress_level := numCol (convert_to_dataframe data)
               (fun e => e.stress_level),
             exercise := numCol (convert_to_dataframe data)
               (fun e => e.exercise),
             severity_7d_avg := none,
             stress_7d_avg := none,
             stress_lag1 := (numCol (convert_to_dataframe data)
               (fun e => e.stress_level)).map shift1,
             sleep_lag1 := (numCol (convert_to_dataframe data)
               (fun e => e.sleep_hours)).map shift1,
             severity_lag1 := (numCol (convert_to_dataframe data)
               (fun e => e.symptom_severity)).map shift1 } := by
  have he : (convert_to_dataframe data).isEmpty = false :=
    List.isEmpty_eq_false.mpr hne
  have hn3 : ¬ 3 ≤ (convert_to_dataframe data).length := by omega
  simp [get_processed_data, he, hn3]

lemma processed_fields (data : EntryCollection) (pd : ProcessedData)
    (h : get_processed_data data = some pd) :
    (∀ s l, pd.symptom_severity = some s → pd.severity_7d_avg = some l →
        l = rollingMean7 s) ∧
    (∀ t l, pd.stress_level = some t → pd.stress_7d_avg = some l →
        l = rollingMean7 t) ∧
    (∀ xs l, pd.stress_level = some xs → pd.stress_lag1 = some l →
        l = shift1 xs) ∧
    (∀ xs l, pd.sleep_hours = some xs → pd.sleep_lag1 = some l →
        l = shift1 xs) ∧
    (∀ xs l, pd.symptom_severity = some xs → pd.severity_lag1 = some l →
        l = shift1 xs) := by
  simp only [get_processed_data] at h
  split at h
  · cases h
    refine ⟨?_, ?_, ?_, ?_, ?_⟩ <;> intro u v hu hv <;> simp at hu
  · split at h
    · split at h
      · rename_i s' t' hs' ht'
        cases h
        refine ⟨?_, ?_, ?_, ?_, ?_⟩ <;> intro u v hu hv <;> dsimp at hu hv
        · rw [hs'] at hu
          obtain rfl : s' = u := Option.some.inj hu
          exact (Option.some.inj hv).symm
        · rw [ht'] at hu
          obtain rfl : t' = u := Option.some.inj hu
          exact (Option.some.inj hv).symm
        · rw [ht'] at hu
          obtain rfl : t' = u := Option.some.inj hu
          rw [ht'] at hv
          simp at hv
          exact hv.symm
        · rw [hu] at hv
          simp at hv
          exact hv.symm
        · rw [hs'] at hu
          obtain rfl : s' = u := Option.some.inj hu
          rw [hs'] at hv
          simp at hv
          exact hv.symm
      · cases h
    · cases h
      refine ⟨?_, ?_, ?_, ?_, ?_⟩ <;> intro u v hu hv <;> dsimp at hu hv
      · simp at hv
      · simp at hv
      · rw [hu] at hv; simp at hv; exact hv.symm
      · rw [hu] at hv; simp at hv; exact hv.symm
      · rw [hu] at hv; simp at hv; exact hv.symm

lemma sorted_perm_nodup_keys_eq :
    ∀ (l1 l2 : EntryCollection), l1.Perm l2 →
      l1.Pairwise (fun a b => strLe a.1 b.1 = true) →
      l2.Pairwise (fun a b => strLe a.1 b.1 = true) →
      (l1.map Prod.fst).Nodup → l1 = l2 := by
  intro l1
  induction l1 with
  | nil =>
    intro l2 hp _ _ _
    exact (hp.symm.eq_nil).symm
  | cons a t1 ih =>
    intro l2 hp hs1 hs2 hnd
    cases l2 with
    | nil =>
      have := hp.length_eq
      simp at this
    | cons b t2 =>
      by_cases hab : a = b
      · subst hab
        have ht : t1.Perm t2 := hp.cons_inv
        have hnd2 : a.1 ∉ t1.map Prod.fst ∧ (t1.map Prod.fst).Nodup := by
          rw [List.map_cons, List.nodup_cons] at hnd
          exact hnd
        have ht1 : t1 = t2 :=
          ih t2 ht (List.Pairwise.of_cons hs1) (List.Pairwise.of_cons hs2)
            hnd2.2
        rw [ht1]
      · have ha2 : a ∈ b :: t2 := hp.mem_iff.mp (List.mem_cons_self a t1)
        have hb1 : b ∈ a :: t1 := hp.mem_iff.mpr (List.mem_cons_self b t2)
        have ha2' : a ∈ t2 := by
          rcases List.mem_cons.mp ha2 with h | h
          · exact absurd h hab
          · exact h
        have hb1' : b ∈ t1 := by
          rcases List.mem_cons.mp hb1 with h | h
          · exact absurd h.symm hab
          · exact h
        have h1 : strLe a.1 b.1 = true := (List.pairwise_cons.mp hs1).1 b hb1'
        have h2 : strLe b.1 a.1 = true := (List.pairwise_cons.mp hs2).1 a ha2'
        have hkey : a.1 = b.1 := strLe_antisymm a.1 b.1 h1 h2
        have hmem : a.1 ∈ t1.map Prod.fst :=
          List.mem_map.mpr ⟨b, hb1', hkey.symm⟩
        have hnd2 : a.1 ∉ t1.map Prod.fst ∧ (t1.map Prod.fst).Nodup := by
          rw [List.map_cons, List.nodup_cons] at hnd
          exact hnd
        exact absurd hmem hnd2.1

lemma get_processed_data_exC3w : get_processed_data exC3w = some pdW := by
  have e1 : strLe "2024-01-01" "2024-01-02" = true := by decide
  have e2 : strLe "2024-01-03" "2024-01-01" = false := by decide
  have e3 : strLe "2024-01-03" "2024-01-02" = false := by decide
  norm_num [get_processed_data, convert_to_dataframe, numCol, colPresent,
    pyFloat, rollingMean7, windowVals, shift1, exC3w, mkEntry,
    HealthEntry.empty, pdW, List.insertionSort, List.orderedInsert,
    List.range_succ, List.filterMap_cons, List.filterMap_nil, id,
    e1, e2, e3]
  refine ⟨⟨fun h => by simp at h, fun h => by simp at h,
      fun h => by simp at h⟩,
    fun h => by simp at h, fun h => by simp at h, fun h => by simp at h⟩

lemma sxx_nonneg (ps : List (ℚ × ℚ)) : 0 ≤ sxx ps := by
  unfold sxx
  exact list_sq_sum_nonneg ps (fun q => q.1 - meanFst ps)

lemma syy_nonneg (ps : List (ℚ × ℚ)) : 0 ≤ syy ps := by
  unfold syy
  exact list_sq_sum_nonneg ps (fun q => q.2 - meanSnd ps)

/-- C1: the claim says trigger detection maps each high-severity date to
that day's free-text meal/diet note and that the spec example yields
the map from "2024-01-01" to "pizza".  The code disagrees:
get_trigger_foods reads the key "meals", but entries are saved with the
note under "diet_notes" (src/app.py, page_todays_log), so on the spec's
own example the returned value is the fallback marker
"No meals recorded", not "pizza".  The date set is right; the mapped
value is not. -/
theorem C1_trigger_map_reads_wrong_key :
    get_trigger_foods specTriggerExample 6
      = some [("2024-01-01", Value.str "No meals recorded")] ∧
    (specTriggerExample.head?.map
        (fun p => p.2.diet_notes) = some (some (Value.str "pizza"))) ∧
    Value.str "No meals recorded" ≠ Value.str "pizza" := by
  refine ⟨by decide, by decide, by decide⟩

/-- C10: with a positive threshold, a record whose symptom_severity key
is absent is read back as 0 by entry.get, so its date is never placed
in the trigger map, and the call completes without raising provided the
stored severities are numbers where present. -/
theorem C10_missing_severity_never_triggers (data : EntryCollection)
    (t : ℚ) (ht : 0 < t)
    (hnum : data.all (fun p => isNumOrAbsent p.2.symptom_severity) = true)
    (hkeys : (data.map Prod.fst).Nodup) :
    ∃ m, get_trigger_foods data t = some m ∧
      ∀ p ∈ data, p.2.symptom_severity = none → ∀ v, (p.1, v) ∉ m := by
  refine ⟨_, get_trigger_foods_eq data t hnum, ?_⟩
  intro p hp hsev v hv
  obtain ⟨q, hqmem, hqeq⟩ := List.mem_map.mp hv
  have hq1 : q.1 = p.1 := by
    injection hqeq
  have hqdata : q ∈ data := (List.mem_filter.mp hqmem).1
  have hqsev : t ≤ numOr0 q.2.symptom_severity :=
    of_decide_eq_true (List.mem_filter.mp hqmem).2
  have hqp : q = p := List.inj_on_of_nodup_map hkeys hqdata hp hq1
  rw [hqp, hsev] at hqsev
  simp only [numOr0] at hqsev
  linarith

/-- Witness for C10 at a concrete collection and threshold 6. -/
theorem C10_missing_severity_never_triggers_witness :
    (0:ℚ) < 6 ∧
    (∃ m, get_trigger_foods exC10 6 = some m ∧
      ∀ p ∈ exC10, p.2.symptom_severity = none → ∀ v, (p.1, v) ∉ m) :=
  ⟨by decide,
   C10_missing_severity_never_triggers exC10 6 (by decide) (by decide)
     (by decide)⟩

/-- C2 counterexample: the claim predicts the severity mean 8.0 (mean
over the single record carrying the field) on exC2, but get_statistics
treats the missing severity as 0 and divides by both records, returning
4.0; and on a record whose severity is the string "high" the float
coercion raises (modelled none) instead of skipping the value. -/
theorem C2_statistics_counterexample :
    get_statistics exC2 = some (4, 7, 3) ∧ (4 : ℚ) ≠ 8 ∧
    get_statistics exC2bad = none := by
  refine ⟨?_, by norm_num, ?_⟩
  · norm_num [get_statistics, fieldSum, pyFloat, round1, roundHalfEven,
      HealthEntry.empty, mkEntry, exC2]
  · decide

/-- C2 (amended): for every non-empty collection whose relevant fields
are each absent or numeric, get_statistics returns, for each of
symptom_severity, sleep_hours and stress_level, the sum over ALL
records -- a record missing the field contributing 0 -- divided by the
total number of records and rounded to one decimal place; a record
with the field missing is counted in the denominator and as zero, and
a non-numeric value makes the computation raise (it is never skipped,
see the counterexample). -/
theorem C2_statistics_zero_fill_mean (data : EntryCollection)
    (hne : data ≠ [])
    (h1 : data.all (fun p => isNumOrAbsent p.2.symptom_severity) = true)
    (h2 : data.all (fun p => isNumOrAbsent p.2.sleep_hours) = true)
    (h3 : data.all (fun p => isNumOrAbsent p.2.stress_level) = true) :
    get_statistics data =
      some (round1 ((data.map (fun p => numOr0 p.2.symptom_severity)).sum
              / (data.length : ℚ)),
            round1 ((data.map (fun p => numOr0 p.2.sleep_hours)).sum
              / (data.length : ℚ)),
            round1 ((data.map (fun p => numOr0 p.2.stress_level)).sum
              / (data.length : ℚ))) :=
  get_statistics_eq data hne h1 h2 h3

/-- Witness for the amended C2 on the two-record collection. -/
theorem C2_statistics_zero_fill_mean_witness :
    exC2 ≠ [] ∧
    get_statistics exC2 =
      some (round1 ((exC2.map (fun p => numOr0 p.2.symptom_severity)).sum
              / (exC2.length : ℚ)),
            round1 ((exC2.map (fun p => numOr0 p.2.sleep_hours)).sum
              / (exC2.length : ℚ)),
            round1 ((exC2.map (fun p => numOr0 p.2.stress_level)).sum
              / (exC2.length : ℚ))) :=
  ⟨by decide,
   C2_statistics_zero_fill_mean exC2 (by decide) (by decide) (by decide)
     (by decide)⟩

/-- C3 counterexample: the claim says the rolling columns are emitted
for every table with at least 1 row, in particular on a 1-row table;
but get_processed_data only creates severity_7d_avg and stress_7d_avg
when the table has at least 3 rows, so on this 1-row collection the
output table carries neither column. -/
theorem C3_rolling_columns_counterexample :
    (get_processed_data exC3).map
        (fun pd => (pd.severity_7d_avg, pd.stress_7d_avg))
      = some (none, none) := by
  decide

/-- C3 (amended): the rolling columns severity_7d_avg and stress_7d_avg
are created, with one value slot for every row, exactly when the
ordered table has at least 3 rows (and its severity and stress columns
exist); each is the trailing up-to-7-row rolling mean with at least 1
sample of its source column; on a table of 1 or 2 rows the code skips
them and the output table carries neither column. -/
theorem C3_rolling_columns_need_three_rows (data : EntryCollection) :
    (3 ≤ (convert_to_dataframe data).length →
      colPresent (convert_to_dataframe data)
        (fun e => e.symptom_severity) = true →
      colPresent (convert_to_dataframe data)
        (fun e => e.stress_level) = true →
      ∃ pd s t, get_processed_data data = some pd ∧
        pd.symptom_severity = some s ∧ pd.stress_level = some t ∧
        pd.severity_7d_avg = some (rollingMean7 s) ∧
        pd.stress_7d_avg = some (rollingMean7 t) ∧
        (rollingMean7 s).length = (convert_to_dataframe data).length ∧
        (rollingMean7 t).length = (convert_to_dataframe data).length) ∧
    (1 ≤ (convert_to_dataframe data).length →
      (convert_to_dataframe data).length < 3 →
      ∃ pd, get_processed_data data = some pd ∧
        pd.severity_7d_avg = none ∧ pd.stress_7d_avg = none) := by
  constructor
  · intro h3 hsev hstr
    refine ⟨_, _, _, get_processed_data_ge3 data h3 hsev hstr,
      rfl, rfl, rfl, rfl, ?_, ?_⟩
    · rw [rollingMean7_length, List.length_map]
    · rw [rollingMean7_length, List.length_map]
  · intro h1 h2
    have hne : convert_to_dataframe data ≠ [] := by
      intro h
      rw [h] at h1
      simp at h1
    exact ⟨_, get_processed_data_lt3 data hne h2, rfl, rfl⟩

/-- Witness for the amended C3 on a three-row collection. -/
theorem C3_rolling_columns_need_three_rows_witness :
    3 ≤ (convert_to_dataframe exC3w).length ∧
    (∃ pd s t, get_processed_data exC3w = some pd ∧
      pd.symptom_severity = some s ∧ pd.stress_level = some t ∧
      pd.severity_7d_avg = some (rollingMean7 s) ∧
      pd.stress_7d_avg = some (rollingMean7 t) ∧
      (rollingMean7 s).length = (convert_to_dataframe exC3w).length ∧
      (rollingMean7 t).length = (convert_to_dataframe exC3w).length) :=
  ⟨by decide,
   (C3_rolling_columns_need_three_rows exC3w).1 (by decide) (by decide)
     (by decide)⟩

/-- C4: wherever the severity_7d_avg column of the processed table holds
a value, that value lies between the minimum and the maximum of the
non-missing severity values in the trailing window of up to 7 rows
actually used. -/
theorem C4_rolling_mean_between_window_bounds (data : EntryCollection)
    (pd : ProcessedData) (s l : List (Option ℚ)) (i : ℕ) (v : ℚ)
    (hpd : get_processed_data data = some pd)
    (hs : pd.symptom_severity = some s)
    (havg : pd.severity_7d_avg = some l)
    (hv : l[i]? = some (some v)) :
    ∃ mn mx, mn ∈ windowVals s i ∧ mx ∈ windowVals s i ∧
      (∀ a ∈ windowVals s i, mn ≤ a ∧ a ≤ mx) ∧ mn ≤ v ∧ v ≤ mx := by
  have hl : l = rollingMean7 s := (processed_fields data pd hpd).1 s l hs havg
  subst hl
  have hi : i < (rollingMean7 s).length := by
    by_contra hge
    push_neg at hge
    rw [List.getElem?_eq_none hge] at hv
    simp at hv
  have hi2 : i < s.length := by
    rwa [rollingMean7_length] at hi
  rw [rollingMean7_get s i hi2] at hv
  have hv2 := Option.some.inj hv
  by_cases hemp : (windowVals s i).isEmpty
  · rw [if_pos hemp] at hv2
    simp at hv2
  · rw [if_neg hemp] at hv2
    have hvv : v = (windowVals s i).sum / ((windowVals s i).length : ℚ) :=
      (Option.some.inj hv2).symm
    have hne : windowVals s i ≠ [] := by
      intro h
      rw [h] at hemp
      exact hemp rfl
    obtain ⟨mn, mx, hm1, hm2, hm3, hm4, hm5⟩ := mean_between_min_max _ hne
    exact ⟨mn, mx, hm1, hm2, hm3, by rw [hvv]; exact hm4,
      by rw [hvv]; exact hm5⟩

/-- Witness for C4 at row 1 of the processed three-row table, whose
severity_7d_avg value 5 sits between the window values 2 and 8. -/
theorem C4_rolling_mean_between_window_bounds_witness :
    get_processed_data exC3w = some pdW ∧
    (∃ mn mx, mn ∈ windowVals [some 2, some 8, some 5] 1 ∧
      mx ∈ windowVals [some 2, some 8, some 5] 1 ∧
      (∀ a ∈ windowVals [some 2, some 8, some 5] 1, mn ≤ a ∧ a ≤ mx) ∧
      mn ≤ 5 ∧ (5 : ℚ) ≤ mx) :=
  ⟨get_processed_data_exC3w,
   C4_rolling_mean_between_window_bounds exC3w pdW
     [some 2, some 8, some 5] [some 2, some 5, some 5] 1 5
     get_processed_data_exC3w rfl rfl rfl⟩

/-- C5: each lag column of the processed table is its source column
shifted down one position: the cell at position i (i positive) equals
the source cell at position i-1 whatever the calendar gap, and the cell
at position 0 is missing. -/
theorem C5_lag_columns_shift_by_position (data : EntryCollection)
    (pd : ProcessedData) (hpd : get_processed_data data = some pd) :
    (∀ xs l, pd.stress_level = some xs → pd.stress_lag1 = some l →
        l.length = xs.length ∧ (0 < xs.length → l[0]? = some none) ∧
        ∀ i, 0 < i → i < xs.length → l[i]? = xs[i - 1]?) ∧
    (∀ xs l, pd.sleep_hours = some xs → pd.sleep_lag1 = some l →
        l.length = xs.length ∧ (0 < xs.length → l[0]? = some none) ∧
        ∀ i, 0 < i → i < xs.length → l[i]? = xs[i - 1]?) ∧
    (∀ xs l, pd.symptom_severity = some xs → pd.severity_lag1 = some l →
        l.length = xs.length ∧ (0 < xs.length → l[0]? = some none) ∧
        ∀ i, 0 < i → i < xs.length → l[i]? = xs[i - 1]?) := by
  obtain ⟨_, _, h3, h4, h5⟩ := processed_fields data pd hpd
  refine ⟨?_, ?_, ?_⟩
  · intro xs l hxs hl
    obtain rfl : l = shift1 xs := h3 xs l hxs hl
    exact ⟨shift1_length xs, shift1_zero xs,
      fun i hi hlt => shift1_get xs i hi hlt⟩
  · intro xs l hxs hl
    obtain rfl : l = shift1 xs := h4 xs l hxs hl
    exact ⟨shift1_length xs, shift1_zero xs,
      fun i hi hlt => shift1_get xs i hi hlt⟩
  · intro xs l hxs hl
    obtain rfl : l = shift1 xs := h5 xs l hxs hl
    exact ⟨shift1_length xs, shift1_zero xs,
      fun i hi hlt => shift1_get xs i hi hlt⟩

/-- Witness for C5 on the stress column of the three-row table. -/
theorem C5_lag_columns_shift_by_position_witness :
    get_processed_data exC3w = some pdW ∧
    (([none, some 1, some 9] : List (Option ℚ)).length
        = ([some 1, some 9, some 3] : List (Option ℚ)).length ∧
      (0 < ([some 1, some 9, some 3] : List (Option ℚ)).length →
        ([none, some 1, some 9] : List (Option ℚ))[0]? = some none) ∧
      ∀ i, 0 < i → i < ([some 1, some 9, some 3] : List (Option ℚ)).length →
        ([none, some 1, some 9] : List (Option ℚ))[i]?
          = ([some 1, some 9, some 3] : List (Option ℚ))[i - 1]?) :=
  ⟨get_processed_data_exC3w,
   (C5_lag_columns_shift_by_position exC3w pdW get_processed_data_exC3w).1
     [some 1, some 9, some 3] [none, some 1, some 9] rfl rfl⟩

/-- C6: the time-series builder emits one row per date key (a
permutation of the collection, nothing synthesized or dropped), sorted
ascending by date string; the empty collection yields the empty table;
and for collections with distinct keys the output is independent of
insertion order. -/
theorem C6_time_series_builder_ordering :
    convert_to_dataframe ([] : EntryCollection) = [] ∧
    (∀ data : EntryCollection, (convert_to_dataframe data).Perm data) ∧
    (∀ data : EntryCollection,
       (convert_to_dataframe data).Pairwise
         (fun a b => strLe a.1 b.1 = true)) ∧
    (∀ d1 d2 : EntryCollection, d1.Perm d2 → (d1.map Prod.fst).Nodup →
       convert_to_dataframe d1 = convert_to_dataframe d2) := by
  haveI : IsTotal (String × HealthEntry) (fun a b => strLe a.1 b.1 = true) :=
    ⟨fun a b => charListLe_total a.1.data b.1.data⟩
  haveI : IsTrans (String × HealthEntry) (fun a b => strLe a.1 b.1 = true) :=
    ⟨fun _ _ _ hab hbc => charListLe_trans _ _ _ hab hbc⟩
  refine ⟨rfl, ?_, ?_, ?_⟩
  · intro data
    exact List.perm_insertionSort _ data
  · intro data
    exact List.sorted_insertionSort _ data
  · intro d1 d2 hperm hnd
    apply sorted_perm_nodup_keys_eq
    · exact (List.perm_insertionSort _ d1).trans
        (hperm.trans (List.perm_insertionSort _ d2).symm)
    · exact List.sorted_insertionSort _ d1
    · exact List.sorted_insertionSort _ d2
    · exact (((List.perm_insertionSort _ d1).map Prod.fst).nodup_iff).mpr hnd

/-- Witness for C6: the two insertion orders build the same table. -/
theorem C6_time_series_builder_ordering_witness :
    exC6a.Perm exC6b ∧
    convert_to_dataframe exC6a = convert_to_dataframe exC6b :=
  ⟨List.Perm.swap _ _ _,
   C6_time_series_builder_ordering.2.2.2 exC6a exC6b (List.Perm.swap _ _ _)
     (by decide)⟩

/-- C9: deleting an absent date reports failure and leaves the
collection untouched; deleting a present date reports success and
removes exactly the binding at that key, every other entry surviving
unchanged. -/
theorem C9_delete_entry_exact (data : EntryCollection) (date : String) :
    ((∀ p ∈ data, p.1 ≠ date) → delete_entry data date = (false, data)) ∧
    ((∃ p ∈ data, p.1 = date) →
       (delete_entry data date).1 = true ∧
       (delete_entry data date).2
          = data.filter (fun p => p.1 != date) ∧
       (∀ p ∈ data, p.1 ≠ date → p ∈ (delete_entry data date).2) ∧
       (∀ p ∈ (delete_entry data date).2, p.1 ≠ date ∧ p ∈ data)) := by
  constructor
  · intro h
    have hany : data.any (fun p => p.1 == date) = false := by
      rw [List.any_eq_false]
      intro x hx
      simp only [beq_iff_eq]
      exact h x hx
    simp [delete_entry, hany]
  · rintro ⟨p, hp, hpe⟩
    have hany : data.any (fun p => p.1 == date) = true := by
      rw [List.any_eq_true]
      exact ⟨p, hp, by simp [hpe]⟩
    have hres : delete_entry data date
        = (true, data.filter (fun p => p.1 != date)) := by
      simp [delete_entry, hany]
    refine ⟨by rw [hres], by rw [hres], ?_, ?_⟩
    · intro q hq hqne
      rw [hres]
      exact List.mem_filter.mpr ⟨hq, by simp [hqne]⟩
    · intro q hq
      rw [hres] at hq
      have hq2 := List.mem_filter.mp hq
      exact ⟨by simpa using hq2.2, hq2.1⟩

/-- Witness for C9: deleting a missing date and a present date. -/
theorem C9_delete_entry_exact_witness :
    delete_entry exC9 "2024-01-09" = (false, exC9) ∧
    ((delete_entry exC9 "2024-01-01").1 = true ∧
     (delete_entry exC9 "2024-01-01").2
        = exC9.filter (fun p => p.1 != "2024-01-01") ∧
     (∀ p ∈ exC9, p.1 ≠ "2024-01-01" →
        p ∈ (delete_entry exC9 "2024-01-01").2) ∧
     (∀ p ∈ (delete_entry exC9 "2024-01-01").2,
        p.1 ≠ "2024-01-01" ∧ p ∈ exC9)) :=
  ⟨(C9_delete_entry_exact exC9 "2024-01-09").1 (by decide),
   (C9_delete_entry_exact exC9 "2024-01-01").2 (by decide)⟩

/-- C7: with fewer than 3 rows both correlation operations return their
insufficient-data figure; the heatmap also signals insufficient data
when fewer than 2 of its candidate columns exist; and with at least 3
rows and the required columns present, the heatmap builds its matrix
and the lag chart builds its bar chart. -/
theorem C7_insufficient_data_gating (df : DFrame) :
    (df.nrows < 3 →
       create_correlation_heatmap df = HeatmapResult.needsMoreData ∧
       create_lagged_correlation_chart df = LagResult.needMoreData) ∧
    (3 ≤ df.nrows →
       (heatmapCols.filter (fun c => hasCol df c)).length < 2 →
       create_correlation_heatmap df = HeatmapResult.notEnoughMetrics ∨
       create_correlation_heatmap df = HeatmapResult.needsMoreData) ∧
    (3 ≤ df.nrows →
       2 ≤ (heatmapCols.filter (fun c => hasCol df c)).length →
       ∃ m, create_correlation_heatmap df = HeatmapResult.heatmap m) ∧
    (3 ≤ df.nrows → hasCol df "symptom_severity" = true →
       lagFeatures.filter (fun p => hasCol df p.2) ≠ [] →
       ∃ cs, create_lagged_correlation_chart df = LagResult.chart cs) := by
  refine ⟨?_, ?_, ?_, ?_⟩
  · intro h
    constructor
    · simp [create_correlation_heatmap, h]
    · simp [create_lagged_correlation_chart, h]
  · intro h3 hlt
    by_cases hemp : df.cols.isEmpty
    · right
      simp [create_correlation_heatmap, hemp]
    · left
      have hn3 : ¬ df.nrows < 3 := by omega
      simp [create_correlation_heatmap, hemp, hn3, hlt]
  · intro h3 h2c
    have hemp : df.cols.isEmpty = false := by
      rcases hc : df.cols with _ | ⟨x, xs⟩
      · exfalso
        have hfil : heatmapCols.filter (fun c => hasCol df c) = [] := by
          simp [hasCol, hc]
        rw [hfil] at h2c
        simp at h2c
      · rfl
    have hn3 : ¬ df.nrows < 3 := by omega
    have hlt2 : ¬ (heatmapCols.filter (fun c => hasCol df c)).length < 2 := by
      omega
    refine ⟨(heatmapCols.filter (fun c => hasCol df c)).map (fun c1 =>
      (heatmapCols.filter (fun c => hasCol df c)).map (fun c2 =>
        pearsonCorr (getColD df c1) (getColD df c2))), ?_⟩
    simp [create_correlation_heatmap, hemp, hn3, hlt2]
  · intro h3 htgt hfeat
    have hemp : df.cols.isEmpty = false := by
      rcases hc : df.cols with _ | ⟨x, xs⟩
      · exfalso
        simp [hasCol, hc] at htgt
      · rfl
    have hn3 : ¬ df.nrows < 3 := by omega
    have hne : ((lagFeatures.filter (fun p => hasCol df p.2)).map (fun p =>
        (p.1, pearsonCorr (getColD df "symptom_severity")
          (getColD df p.2)))).isEmpty = false := by
      rw [List.isEmpty_eq_false]
      simp only [ne_eq, List.map_eq_nil_iff]
      exact hfeat
    refine ⟨(lagFeatures.filter (fun p => hasCol df p.2)).map (fun p =>
      (p.1, pearsonCorr (getColD df "symptom_severity") (getColD df p.2))),
      ?_⟩
    simp [create_lagged_correlation_chart, hemp, hn3, htgt, hne]

/-- Witness for C7: two rows gate both operations; three rows with the
needed columns let both run. -/
theorem C7_insufficient_data_gating_witness :
    (create_correlation_heatmap dfSmall = HeatmapResult.needsMoreData ∧
     create_lagged_correlation_chart dfSmall = LagResult.needMoreData) ∧
    (∃ m, create_correlation_heatmap dfW = HeatmapResult.heatmap m) ∧
    (∃ cs, create_lagged_correlation_chart dfW = LagResult.chart cs) :=
  ⟨(C7_insufficient_data_gating dfSmall).1 (by decide),
   (C7_insufficient_data_gating dfW).2.2.1 (by decide) (by decide),
   (C7_insufficient_data_gating dfW).2.2.2 (by decide) (by decide)
     (by decide)⟩

/-- C8: a computable pair (at least 2 complete pairs, neither column
constant on them) yields a Pearson correlation in the interval
[-1, 1] -- the value the code computes is sxy over the square root of
sxx times syy; a pair with a constant column yields the undefined
(NaN) result rather than a division error. -/
theorem C8_pearson_correlation_bounds :
    (∀ xs ys : List (Option ℚ), ∀ c p : ℚ,
        pearsonCorr xs ys = some (c, p) →
        0 < p ∧ -1 ≤ (c : ℝ) / Real.sqrt (p : ℝ) ∧
          (c : ℝ) / Real.sqrt (p : ℝ) ≤ 1) ∧
    (∀ xs ys : List (Option ℚ),
        sxx (pairwiseComplete xs ys) = 0 ∨
          syy (pairwiseComplete xs ys) = 0 →
        pearsonCorr xs ys = none) := by
  constructor
  · intro xs ys c p h
    simp only [pearsonCorr] at h
    by_cases hlen : (pairwiseComplete xs ys).length < 2
    · rw [if_pos hlen] at h
      exact absurd h (by simp)
    · rw [if_neg hlen] at h
      by_cases hzero : sxx (pairwiseComplete xs ys) = 0 ∨
          syy (pairwiseComplete xs ys) = 0
      · rw [if_pos hzero] at h
        exact absurd h (by simp)
      · rw [if_neg hzero] at h
        rw [Option.some.injEq, Prod.mk.injEq] at h
        obtain ⟨hc, hp⟩ := h
        push_neg at hzero
        subst hc
        subst hp
        have hxx : 0 < sxx (pairwiseComplete xs ys) :=
          lt_of_le_of_ne (sxx_nonneg _) (Ne.symm hzero.1)
        have hyy : 0 < syy (pairwiseComplete xs ys) :=
          lt_of_le_of_ne (syy_nonneg _) (Ne.symm hzero.2)
        have hcs : (sxy (pairwiseComplete xs ys)) ^ 2 ≤
            sxx (pairwiseComplete xs ys) * syy (pairwiseComplete xs ys) := by
          have h2 := list_cauchy_schwarz (pairwiseComplete xs ys)
            (fun q => q.1 - meanFst (pairwiseComplete xs ys))
            (fun q => q.2 - meanSnd (pairwiseComplete xs ys))
          simpa [sxy, sxx, syy] using h2
        have hsq : ((sxy (pairwiseComplete xs ys) : ℚ) : ℝ) ^ 2 ≤
            ((sxx (pairwiseComplete xs ys) *
              syy (pairwiseComplete xs ys) : ℚ) : ℝ) := by
          exact_mod_cast hcs
        have habs : |((sxy (pairwiseComplete xs ys) : ℚ) : ℝ)| ≤
            Real.sqrt ((sxx (pairwiseComplete xs ys) *
              syy (pairwiseComplete xs ys) : ℚ) : ℝ) := by
          rw [← Real.sqrt_sq_eq_abs]
          exact Real.sqrt_le_sqrt hsq
        have hq : |((sxy (pairwiseComplete xs ys) : ℚ) : ℝ) /
            Real.sqrt ((sxx (pairwiseComplete xs ys) *
              syy (pairwiseComplete xs ys) : ℚ) : ℝ)| ≤ 1 := by
          rw [abs_div, abs_of_nonneg (Real.sqrt_nonneg _)]
          exact div_le_one_of_le₀ habs (Real.sqrt_nonneg _)
        exact ⟨mul_pos hxx hyy, (abs_le.mp hq).1, (abs_le.mp hq).2⟩
  · intro xs ys h
    simp only [pearsonCorr]
    by_cases hlen : (pairwiseComplete xs ys).length < 2
    · rw [if_pos hlen]
    · rw [if_neg hlen, if_pos h]

/-- Witness for C8: a column against itself gives the encoded pair
(2, 4), whose correlation 2 over the square root of 4 lies in [-1, 1];
against a constant column the result is the undefined marker. -/
theorem C8_pearson_correlation_bounds_witness :
    pearsonCorr colW colW = some (2, 4) ∧
    (0 < (4:ℚ) ∧ -1 ≤ ((2:ℚ) : ℝ) / Real.sqrt ((4:ℚ) : ℝ) ∧
      ((2:ℚ) : ℝ) / Real.sqrt ((4:ℚ) : ℝ) ≤ 1) ∧
    pearsonCorr colW colConst = none := by
  have h1 : pearsonCorr colW colW = some (2, 4) := by
    norm_num [pearsonCorr, pairwiseComplete, sxx, syy, sxy, meanFst,
      meanSnd, colW, List.filterMap_cons]
  refine ⟨h1, C8_pearson_correlation_bounds.1 colW colW 2 4 h1, ?_⟩
  apply C8_pearson_correlation_bounds.2
  right
  norm_num [pairwiseComplete, syy, meanSnd, colW, colConst,
    List.filterMap_cons]

